import Mathlib

/-!
Shallow embedding of the profile-scoped persistence layer of
`ue4-drg-modman` (`src/db.rs`).

The SQLite database is modelled as an explicit state record:
  * table `profiles`            → `DBState.profiles : List String`
  * table `mods_global`         → `DBState.mods_global : List (String × GlobalRow)`
  * table `mod_versions`        → `DBState.mod_versions : List (String × String)`
  * the per-profile tables `mods_<name>` → `DBState.statusTables`, an
    association list from profile name to that profile's status table
    (a key is present exactly when the SQL table exists);
  * the in-memory field `current_profile` → `DBState.current_profile`.

Tables keep SQL row order (`SELECT` without `ORDER BY` returns rowid
order; `INSERT OR REPLACE` deletes the conflicting row and appends a
fresh one, `INSERT OR IGNORE` appends only when the key is absent).
Primary keys make key lookups unambiguous.  Each operation of
`impl Database` becomes a function `DBState → ... → Except DBError Unit × DBState`
returning the rusqlite result together with the post-state, so that
partial mutation before an error is representable, exactly as in the
Rust code where `self.conn` survives an `Err` return.
-/

/-- The three metadata columns of `mods_global` apart from the key. -/
structure GlobalRow where
  mod_name : String
  mod_link : String
  download_folder : String
deriving Repr, DecidableEq

/-- One row of a per-profile table `mods_<name>` apart from the key. -/
structure StatusRow where
  selected_version : String
  installed : Bool
  enabled : Bool
deriving Repr, DecidableEq

/-- `db::ModEntry` from `src/db.rs`. -/
structure ModEntry where
  mod_id : String
  mod_name : String
  mod_link : String
  download_folder : String
  selected_version : String
  installed : Bool
  enabled : Bool
deriving Repr, DecidableEq

/-- First-match association-list lookup, the list analogue of a lookup
by SQL primary key. -/
def alookup {α : Type} (k : String) : List (String × α) → Option α
  | [] => none
  | p :: rest => if p.1 = k then some p.2 else alookup k rest

/-- `INSERT OR REPLACE` keyed by `k`: SQLite deletes every conflicting
row and appends the new row with a fresh rowid. -/
def insertReplace {α : Type} (k : String) (v : α) (l : List (String × α)) :
    List (String × α) :=
  l.filter (fun p => !(p.1 == k)) ++ [(k, v)]

/-- `INSERT OR IGNORE` keyed by `k`: append only when the key is absent. -/
def insertIgnore {α : Type} (k : String) (v : α) (l : List (String × α)) :
    List (String × α) :=
  if (alookup k l).isSome then l else l ++ [(k, v)]

/-- `DROP TABLE IF EXISTS` / `DELETE ... WHERE key = k` on a keyed list. -/
def eraseKey {α : Type} (k : String) (l : List (String × α)) :
    List (String × α) :=
  l.filter (fun p => !(p.1 == k))

/-- Overwrite the value stored at an existing key, keeping row order
(used for the in-place mutation of one profile's status table). -/
def setTable {α : Type} (k : String) (v : α) (l : List (String × α)) :
    List (String × α) :=
  l.map (fun p => if p.1 = k then (k, v) else p)

/-- `UPDATE ... SET ... WHERE mod_id = id` on a status table: rewrite
every row whose key matches, leave the rest; zero matches is a no-op. -/
def updateRows (id : String) (f : StatusRow → StatusRow)
    (tbl : List (String × StatusRow)) : List (String × StatusRow) :=
  tbl.map (fun r => if r.1 = id then (r.1, f r.2) else r)

/-- The structured errors the store can return (rusqlite errors, named
after the conditions that raise them in `src/db.rs`). -/
inductive DBError where
  /-- `delete_profile("Default")`: `InvalidParameterName("Cannot delete Default profile")`. -/
  | protectedProfile
  /-- `INSERT INTO profiles` hitting the `name` primary key. -/
  | duplicateProfile
  /-- a query against a per-profile table that does not exist. -/
  | noSuchTable
deriving Repr, DecidableEq

/-- The on-disk contents `Connection::open` finds before `Database::new`
runs its schema setup (empty lists model a fresh file). -/
structure DiskState where
  profiles : List String
  mods_global : List (String × GlobalRow)
  mod_versions : List (String × String)
  statusTables : List (String × List (String × StatusRow))
deriving Repr, DecidableEq

/-- The open database: the connection's tables plus the in-memory
`current_profile` field of `db::Database`. -/
structure DBState where
  profiles : List String
  mods_global : List (String × GlobalRow)
  mod_versions : List (String × String)
  statusTables : List (String × List (String × StatusRow))
  current_profile : String
deriving Repr, DecidableEq

/-- An empty database file. -/
def emptyDisk : DiskState :=
  { profiles := [], mods_global := [], mod_versions := [], statusTables := [] }

/-- `Database::new` (src/db.rs:21-112): create the schema if absent,
insert the `Default` profile if missing, ensure `mods_Default` and one
status table per registered profile exist, start on `Default`. -/
def Database.new (d : DiskState) : DBState :=
  let profiles := if "Default" ∈ d.profiles then d.profiles
                  else d.profiles ++ ["Default"]
  let tables0 := if (alookup "Default" d.statusTables).isSome then d.statusTables
                 else d.statusTables ++ [("Default", [])]
  let tables := profiles.foldl
    (fun ts p =>
      if p = "Default" then ts
      else if (alookup p ts).isSome then ts else ts ++ [(p, [])])
    tables0
  { profiles := profiles
    mods_global := d.mods_global
    mod_versions := d.mod_versions
    statusTables := tables
    current_profile := "Default" }

/-- `Database::create_profile` (src/db.rs:114-136): `INSERT INTO
profiles` fails on a duplicate name before anything else runs; on
success `CREATE TABLE IF NOT EXISTS mods_<name>`. -/
def DBState.create_profile (s : DBState) (name : String) :
    Except DBError Unit × DBState :=
  if name ∈ s.profiles then
    (Except.error DBError.duplicateProfile, s)
  else
    (Except.ok (),
      { s with
        profiles := s.profiles ++ [name]
        statusTables :=
          if (alookup name s.statusTables).isSome then s.statusTables
          else s.statusTables ++ [(name, [])] })

/-- `Database::delete_profile` (src/db.rs:138-156): refuse `"Default"`
before touching anything; otherwise `DELETE FROM profiles WHERE name`
then `DROP TABLE IF EXISTS mods_<name>`, both no-op-tolerant. -/
def DBState.delete_profile (s : DBState) (name : String) :
    Except DBError Unit × DBState :=
  if name = "Default" then
    (Except.error DBError.protectedProfile, s)
  else
    (Except.ok (),
      { s with
        profiles := s.profiles.filter (fun n => !(n == name))
        statusTables := eraseKey name s.statusTables })

/-- `Database::set_current_profile` (src/db.rs:169-171): a pure field
write, with no validation of the name. -/
def DBState.set_current_profile (s : DBState) (p : String) : DBState :=
  { s with current_profile := p }

/-- The combining step of `get_mods` (src/db.rs:219-234): a global row
decorated with its status row from the profile table, or with the
defaults `("1.0.0", false, false)` when no status row exists. -/
def decorateRow (tbl : List (String × StatusRow)) (p : String × GlobalRow) :
    ModEntry :=
  let st := (alookup p.1 tbl).getD ⟨"1.0.0", false, false⟩
  { mod_id := p.1
    mod_name := p.2.mod_name
    mod_link := p.2.mod_link
    download_folder := p.2.download_folder
    selected_version := st.selected_version
    installed := st.installed
    enabled := st.enabled }

/-- `Database::get_mods` (src/db.rs:177-237): read every global row,
read the current profile's status table (failing if that table does not
exist), and decorate each global row with its profile status. -/
def DBState.get_mods (s : DBState) : Except DBError (List ModEntry) :=
  match alookup s.current_profile s.statusTables with
  | none => Except.error DBError.noSuchTable
  | some tbl => Except.ok (s.mods_global.map (decorateRow tbl))

/-- `Database::add_mod` (src/db.rs:239-284): upsert the global row,
`INSERT OR IGNORE` the `(mod_id, version)` pair, then `INSERT OR
IGNORE` a status row carrying the entry's own version and flags into
the current profile's table.  The first two statements have already
committed when the third fails on a missing table. -/
def DBState.add_mod (s : DBState) (e : ModEntry) :
    Except DBError Unit × DBState :=
  let s1 := { s with
    mods_global :=
      insertReplace e.mod_id ⟨e.mod_name, e.mod_link, e.download_folder⟩
        s.mods_global
    mod_versions :=
      if (e.mod_id, e.selected_version) ∈ s.mod_versions then
        s.mod_versions
      else s.mod_versions ++ [(e.mod_id, e.selected_version)] }
  match alookup s.current_profile s.statusTables with
  | none => (Except.error DBError.noSuchTable, s1)
  | some tbl =>
    (Except.ok (),
      { s1 with
        statusTables :=
          setTable s.current_profile
            (insertIgnore e.mod_id
              ⟨e.selected_version, e.installed, e.enabled⟩ tbl)
            s.statusTables })

/-- `Database::update_mod_status` (src/db.rs:286-297): `UPDATE`
both flags in the current profile's table; zero matched rows is `Ok`. -/
def DBState.update_mod_status (s : DBState) (mod_id : String)
    (installed enabled : Bool) : Except DBError Unit × DBState :=
  match alookup s.current_profile s.statusTables with
  | none => (Except.error DBError.noSuchTable, s)
  | some tbl =>
    (Except.ok (),
      { s with
        statusTables :=
          setTable s.current_profile
            (updateRows mod_id
              (fun r => ⟨r.selected_version, installed, enabled⟩) tbl)
            s.statusTables })

/-- `Database::update_mod_installed` (src/db.rs:299-310). -/
def DBState.update_mod_installed (s : DBState) (mod_id : String)
    (installed : Bool) : Except DBError Unit × DBState :=
  match alookup s.current_profile s.statusTables with
  | none => (Except.error DBError.noSuchTable, s)
  | some tbl =>
    (Except.ok (),
      { s with
        statusTables :=
          setTable s.current_profile
            (updateRows mod_id
              (fun r => ⟨r.selected_version, installed, r.enabled⟩) tbl)
            s.statusTables })

/-- `Database::update_mod_enabled` (src/db.rs:312-323). -/
def DBState.update_mod_enabled (s : DBState) (mod_id : String)
    (enabled : Bool) : Except DBError Unit × DBState :=
  match alookup s.current_profile s.statusTables with
  | none => (Except.error DBError.noSuchTable, s)
  | some tbl =>
    (Except.ok (),
      { s with
        statusTables :=
          setTable s.current_profile
            (updateRows mod_id
              (fun r => ⟨r.selected_version, r.installed, enabled⟩) tbl)
            s.statusTables })

/-- The store operations avaliable to callers, for quantifying over
arbitrary operation sequences. -/
inductive Op where
  | createProfile (name : String)
  | deleteProfile (name : String)
  | setCurrentProfile (name : String)
  | addMod (e : ModEntry)
  | updateModStatus (id : String) (i e : Bool)
  | updateModInstalled (id : String) (i : Bool)
  | updateModEnabled (id : String) (e : Bool)
deriving Repr, DecidableEq

/-- The state an operation leaves behind (on an error the `Database`
value survives with whatever partial mutation occurred). -/
def step (s : DBState) : Op → DBState
  | Op.createProfile n => (s.create_profile n).2
  | Op.deleteProfile n => (s.delete_profile n).2
  | Op.setCurrentProfile n => s.set_current_profile n
  | Op.addMod e => (s.add_mod e).2
  | Op.updateModStatus id i e => (s.update_mod_status id i e).2
  | Op.updateModInstalled id i => (s.update_mod_installed id i).2
  | Op.updateModEnabled id e => (s.update_mod_enabled id e).2

/-- The status triple `get_mods` reports for `id`, if it reports one:
`none` when the current table is missing or `id` has no global row. -/
def DBState.reported_status (s : DBState) (id : String) : Option StatusRow :=
  match s.get_mods with
  | Except.error _ => none
  | Except.ok l =>
    (l.find? (fun e => e.mod_id == id)).map
      (fun e => ⟨e.selected_version, e.installed, e.enabled⟩)

/-! ### Unfolding equations for the keyed-list operations -/

theorem alookup_nil {α : Type} (k : String) :
    alookup k ([] : List (String × α)) = none := rfl

theorem alookup_cons {α : Type} (k : String) (p : String × α)
    (l : List (String × α)) :
    alookup k (p :: l) = if p.1 = k then some p.2 else alookup k l := rfl

theorem setTable_cons {α : Type} (k : String) (v : α) (p : String × α)
    (l : List (String × α)) :
    setTable k v (p :: l) = (if p.1 = k then (k, v) else p) :: setTable k v l := rfl

theorem updateRows_cons (id : String) (f : StatusRow → StatusRow)
    (r : String × StatusRow) (tbl : List (String × StatusRow)) :
    updateRows id f (r :: tbl) =
      (if r.1 = id then (r.1, f r.2) else r) :: updateRows id f tbl := rfl

/-! ### Lookup lemmas for the keyed-list operations -/

theorem alookup_append {α : Type} (k : String) (l1 l2 : List (String × α)) :
    alookup k (l1 ++ l2) =
      match alookup k l1 with
      | some v => some v
      | none => alookup k l2 := by
  induction l1 with
  | nil => simp [alookup]
  | cons p rest ih =>
    by_cases hp : p.1 = k <;> simp [alookup_cons, hp, ih]

theorem alookup_filter_out_self {α : Type} (k : String)
    (l : List (String × α)) :
    alookup k (l.filter (fun p => !(p.1 == k))) = none := by
  induction l with
  | nil => rfl
  | cons p rest ih =>
    by_cases hp : p.1 = k
    · have hb : (p.1 == k) = true := beq_iff_eq.mpr hp
      simp [List.filter_cons, hb, ih]
    · have hb : (p.1 == k) = false := beq_eq_false_iff_ne.mpr hp
      simp [List.filter_cons, hb, alookup_cons, hp, ih]

theorem alookup_filter_out_ne {α : Type} (k k' : String) (h : k ≠ k')
    (l : List (String × α)) :
    alookup k (l.filter (fun p => !(p.1 == k'))) = alookup k l := by
  induction l with
  | nil => rfl
  | cons p rest ih =>
    by_cases hp : p.1 = k'
    · have hb : (p.1 == k') = true := beq_iff_eq.mpr hp
      have hk : ¬(p.1 = k) := by
        intro hkk
        exact h (hkk ▸ hp)
      simp [List.filter_cons, hb, alookup_cons, hk, ih]
    · have hb : (p.1 == k') = false := beq_eq_false_iff_ne.mpr hp
      by_cases hk : p.1 = k <;>
        simp [List.filter_cons, hb, alookup_cons, hk, h, Ne.symm h, ih]

theorem alookup_insertReplace_self {α : Type} (k : String) (v : α)
    (l : List (String × α)) :
    alookup k (insertReplace k v l) = some v := by
  unfold insertReplace
  rw [alookup_append, alookup_filter_out_self]
  simp [alookup_cons]

theorem alookup_insertReplace_ne {α : Type} (k k' : String) (h : k ≠ k')
    (v : α) (l : List (String × α)) :
    alookup k (insertReplace k' v l) = alookup k l := by
  unfold insertReplace
  rw [alookup_append, alookup_filter_out_ne k k' h]
  cases hl : alookup k l with
  | some w => simp
  | none => simp [alookup_cons, Ne.symm h, alookup_nil]

theorem insertIgnore_of_isSome {α : Type} (k : String) (v : α)
    (l : List (String × α)) (h : (alookup k l).isSome) :
    insertIgnore k v l = l := by
  simp [insertIgnore, h]

theorem alookup_insertIgnore_self_of_none {α : Type} (k : String) (v : α)
    (l : List (String × α)) (h : alookup k l = none) :
    alookup k (insertIgnore k v l) = some v := by
  simp only [insertIgnore, h, Option.isSome_none, Bool.false_eq_true,
    if_false]
  rw [alookup_append, h]
  simp [alookup_cons]

theorem alookup_eraseKey_self {α : Type} (k : String)
    (l : List (String × α)) :
    alookup k (eraseKey k l) = none :=
  alookup_filter_out_self k l

theorem alookup_eraseKey_ne {α : Type} (k k' : String) (h : k ≠ k')
    (l : List (String × α)) :
    alookup k (eraseKey k' l) = alookup k l :=
  alookup_filter_out_ne k k' h l

theorem alookup_setTable_self {α : Type} (k : String) (v w : α)
    (l : List (String × α)) (h : alookup k l = some v) :
    alookup k (setTable k w l) = some w := by
  induction l with
  | nil => simp [alookup_nil] at h
  | cons p rest ih =>
    by_cases hp : p.1 = k
    · simp [setTable_cons, alookup_cons, hp]
    · rw [alookup_cons, if_neg hp] at h
      simp [setTable_cons, alookup_cons, hp, ih h]

theorem alookup_setTable_ne {α : Type} (k k' : String) (h : k ≠ k') (w : α)
    (l : List (String × α)) :
    alookup k (setTable k' w l) = alookup k l := by
  induction l with
  | nil => rfl
  | cons p rest ih =>
    by_cases hp : p.1 = k'
    · have hk2 : ¬(p.1 = k) := fun hkk => h (hkk.symm.trans hp)
      simp [setTable_cons, alookup_cons, hp, h, Ne.symm h, hk2, ih]
    · by_cases hk : p.1 = k <;>
        simp [setTable_cons, alookup_cons, hp, hk, h, Ne.symm h, ih]

theorem alookup_updateRows_ne (id id' : String) (h : id' ≠ id)
    (f : StatusRow → StatusRow) (tbl : List (String × StatusRow)) :
    alookup id' (updateRows id f tbl) = alookup id' tbl := by
  induction tbl with
  | nil => rfl
  | cons p rest ih =>
    by_cases hp : p.1 = id
    · have hk : ¬(p.1 = id') := fun hkk => h (hkk.symm.trans hp)
      simp [updateRows_cons, alookup_cons, hp, hk, h, Ne.symm h, ih]
    · by_cases hk : p.1 = id' <;>
        simp [updateRows_cons, alookup_cons, hp, hk, h, Ne.symm h, ih]

theorem updateRows_of_none (id : String) (f : StatusRow → StatusRow)
    (tbl : List (String × StatusRow)) (h : alookup id tbl = none) :
    updateRows id f tbl = tbl := by
  induction tbl with
  | nil => rfl
  | cons p rest ih =>
    by_cases hp : p.1 = id
    · rw [alookup_cons, if_pos hp] at h
      exact absurd h (by simp)
    · rw [alookup_cons, if_neg hp] at h
      simp [updateRows_cons, hp, ih h]

/-! ### Field-level effects of the store operations -/

theorem add_mod_mods_global (s : DBState) (e : ModEntry) :
    ((s.add_mod e).2).mods_global =
      insertReplace e.mod_id ⟨e.mod_name, e.mod_link, e.download_folder⟩
        s.mods_global := by
  unfold DBState.add_mod
  cases alookup s.current_profile s.statusTables <;> rfl

theorem add_mod_mod_versions (s : DBState) (e : ModEntry) :
    ((s.add_mod e).2).mod_versions =
      if (e.mod_id, e.selected_version) ∈ s.mod_versions then s.mod_versions
      else s.mod_versions ++ [(e.mod_id, e.selected_version)] := by
  unfold DBState.add_mod
  cases alookup s.current_profile s.statusTables <;> rfl

theorem add_mod_profiles (s : DBState) (e : ModEntry) :
    ((s.add_mod e).2).profiles = s.profiles := by
  unfold DBState.add_mod
  cases alookup s.current_profile s.statusTables <;> rfl

theorem add_mod_current_profile (s : DBState) (e : ModEntry) :
    ((s.add_mod e).2).current_profile = s.current_profile := by
  unfold DBState.add_mod
  cases alookup s.current_profile s.statusTables <;> rfl

theorem add_mod_statusTables_ne (s : DBState) (e : ModEntry) (A : String)
    (h : A ≠ s.current_profile) :
    alookup A ((s.add_mod e).2).statusTables = alookup A s.statusTables := by
  unfold DBState.add_mod
  cases alookup s.current_profile s.statusTables with
  | none => rfl
  | some tbl => simpa using alookup_setTable_ne A s.current_profile h _ _

theorem update_mod_status_profiles (s : DBState) (mid : String)
    (i en : Bool) :
    ((s.update_mod_status mid i en).2).profiles = s.profiles := by
  unfold DBState.update_mod_status
  cases alookup s.current_profile s.statusTables <;> rfl

theorem update_mod_status_mods_global (s : DBState) (mid : String)
    (i en : Bool) :
    ((s.update_mod_status mid i en).2).mods_global = s.mods_global := by
  unfold DBState.update_mod_status
  cases alookup s.current_profile s.statusTables <;> rfl

theorem update_mod_status_current (s : DBState) (mid : String)
    (i en : Bool) :
    ((s.update_mod_status mid i en).2).current_profile =
      s.current_profile := by
  unfold DBState.update_mod_status
  cases alookup s.current_profile s.statusTables <;> rfl

theorem update_mod_status_tables_ne (s : DBState) (mid : String)
    (i en : Bool) (A : String) (h : A ≠ s.current_profile) :
    alookup A ((s.update_mod_status mid i en).2).statusTables =
      alookup A s.statusTables := by
  unfold DBState.update_mod_status
  cases alookup s.current_profile s.statusTables with
  | none => rfl
  | some tbl => simpa using alookup_setTable_ne A s.current_profile h _ _

theorem update_mod_installed_profiles (s : DBState) (mid : String)
    (i : Bool) :
    ((s.update_mod_installed mid i).2).profiles = s.profiles := by
  unfold DBState.update_mod_installed
  cases alookup s.current_profile s.statusTables <;> rfl

theorem update_mod_installed_mods_global (s : DBState) (mid : String)
    (i : Bool) :
    ((s.update_mod_installed mid i).2).mods_global = s.mods_global := by
  unfold DBState.update_mod_installed
  cases alookup s.current_profile s.statusTables <;> rfl

theorem update_mod_installed_current (s : DBState) (mid : String)
    (i : Bool) :
    ((s.update_mod_installed mid i).2).current_profile =
      s.current_profile := by
  unfold DBState.update_mod_installed
  cases alookup s.current_profile s.statusTables <;> rfl

theorem update_mod_installed_tables_ne (s : DBState) (mid : String)
    (i : Bool) (A : String) (h : A ≠ s.current_profile) :
    alookup A ((s.update_mod_installed mid i).2).statusTables =
      alookup A s.statusTables := by
  unfold DBState.update_mod_installed
  cases alookup s.current_profile s.statusTables with
  | none => rfl
  | some tbl => simpa using alookup_setTable_ne A s.current_profile h _ _

theorem update_mod_enabled_profiles (s : DBState) (mid : String)
    (en : Bool) :
    ((s.update_mod_enabled mid en).2).profiles = s.profiles := by
  unfold DBState.update_mod_enabled
  cases alookup s.current_profile s.statusTables <;> rfl

theorem update_mod_enabled_mods_global (s : DBState) (mid : String)
    (en : Bool) :
    ((s.update_mod_enabled mid en).2).mods_global = s.mods_global := by
  unfold DBState.update_mod_enabled
  cases alookup s.current_profile s.statusTables <;> rfl

theorem update_mod_enabled_current (s : DBState) (mid : String)
    (en : Bool) :
    ((s.update_mod_enabled mid en).2).current_profile =
      s.current_profile := by
  unfold DBState.update_mod_enabled
  cases alookup s.current_profile s.statusTables <;> rfl

theorem update_mod_enabled_tables_ne (s : DBState) (mid : String)
    (en : Bool) (A : String) (h : A ≠ s.current_profile) :
    alookup A ((s.update_mod_enabled mid en).2).statusTables =
      alookup A s.statusTables := by
  unfold DBState.update_mod_enabled
  cases alookup s.current_profile s.statusTables with
  | none => rfl
  | some tbl => simpa using alookup_setTable_ne A s.current_profile h _ _

/-! ### Characterizing `reported_status` -/

theorem find_decorate_eq (tbl : List (String × StatusRow)) (id : String)
    (l : List (String × GlobalRow)) :
    ((l.map (decorateRow tbl)).find? (fun e => e.mod_id == id)).map
        (fun e => (⟨e.selected_version, e.installed, e.enabled⟩ : StatusRow)) =
      if l.any (fun p => p.1 == id) then
        some ((alookup id tbl).getD ⟨"1.0.0", false, false⟩)
      else none := by
  induction l with
  | nil => rfl
  | cons p rest ih =>
    by_cases hp : p.1 = id
    · have hb : ((decorateRow tbl p).mod_id == id) = true := beq_iff_eq.mpr hp
      have hb2 : (p.1 == id) = true := beq_iff_eq.mpr hp
      simp [List.find?_cons_of_pos _ hb, hb2, decorateRow, hp]
    · have hb : ((decorateRow tbl p).mod_id == id) = false :=
        beq_eq_false_iff_ne.mpr hp
      have hb2 : (p.1 == id) = false := beq_eq_false_iff_ne.mpr hp
      have hfind : List.find? (fun e => e.mod_id == id)
          (decorateRow tbl p :: List.map (decorateRow tbl) rest) =
          List.find? (fun e => e.mod_id == id)
            (List.map (decorateRow tbl) rest) :=
        List.find?_cons_of_neg _ (by simp [hb])
      simp only [List.map_cons, List.any_cons, hb2, Bool.false_or, hfind]
      exact ih

theorem reported_status_of_table (s : DBState) (tbl : List (String × StatusRow))
    (ht : alookup s.current_profile s.statusTables = some tbl) (id : String) :
    s.reported_status id =
      if s.mods_global.any (fun p => p.1 == id) then
        some ((alookup id tbl).getD ⟨"1.0.0", false, false⟩)
      else none := by
  unfold DBState.reported_status DBState.get_mods
  rw [ht]
  exact find_decorate_eq tbl id s.mods_global

theorem reported_status_of_no_table (s : DBState)
    (ht : alookup s.current_profile s.statusTables = none) (id : String) :
    s.reported_status id = none := by
  unfold DBState.reported_status DBState.get_mods
  rw [ht]

/-! ### Concrete states used by the witnesses -/

/-- The store opened on a fresh database file. -/
def dbInit : DBState := Database.new emptyDisk

/-- The manual-entry mod of the spec's walkthrough scenario. -/
def entryFast : ModEntry :=
  ⟨"m1", "Fast Ladders", "/tmp/ladders.zip", "downloads", "1.2", false, false⟩

/-- A fresh store with one mod added under `Default`. -/
def dbWithMod : DBState := (dbInit.add_mod entryFast).2

/-- A fresh store with a second profile registered. -/
def dbAlt : DBState := (dbInit.create_profile "Alt").2

/-! ### The claims -/

/-- C8: `create_profile(name)` fails with `DuplicateProfile` whenever
`name` is already registered, and on that failure the registry gains no
row (the whole state is untouched). -/
theorem create_profile_duplicate (s : DBState) (name : String)
    (h : name ∈ s.profiles) :
    s.create_profile name = (Except.error DBError.duplicateProfile, s) := by
  simp [DBState.create_profile, h]

/-- C8 witness: re-creating `"Default"` right after initialization fails
with `DuplicateProfile` and changes nothing. -/
theorem create_profile_duplicate_witness :
    "Default" ∈ dbInit.profiles ∧
    dbInit.create_profile "Default" =
      (Except.error DBError.duplicateProfile, dbInit) :=
  ⟨by decide, create_profile_duplicate dbInit "Default" (by decide)⟩

/-- C5: `delete_profile("Default")` always fails with `ProtectedProfile`
leaving the whole state unchanged; for any other registered name the
call succeeds, removes exactly that registry entry, and drops exactly
that profile's status table. -/
theorem delete_profile_spec (s : DBState) :
    s.delete_profile "Default" = (Except.error DBError.protectedProfile, s) ∧
    ∀ name, name ≠ "Default" → name ∈ s.profiles →
      (s.delete_profile name).1 = Except.ok () ∧
      name ∉ ((s.delete_profile name).2).profiles ∧
      (∀ p, p ≠ name →
        (p ∈ ((s.delete_profile name).2).profiles ↔ p ∈ s.profiles)) ∧
      alookup name ((s.delete_profile name).2).statusTables = none ∧
      ∀ p, p ≠ name →
        alookup p ((s.delete_profile name).2).statusTables =
          alookup p s.statusTables := by
  constructor
  · simp [DBState.delete_profile]
  · intro name hname hmem
    refine ⟨?_, ?_, ?_, ?_, ?_⟩
    · simp [DBState.delete_profile, hname]
    · simp [DBState.delete_profile, hname, List.mem_filter]
    · intro p hp
      simp [DBState.delete_profile, hname, List.mem_filter,
        beq_eq_false_iff_ne.mpr hp]
    · simp only [DBState.delete_profile, if_neg hname]
      exact alookup_eraseKey_self name s.statusTables
    · intro p hp
      simp only [DBState.delete_profile, if_neg hname]
      exact alookup_eraseKey_ne p name hp s.statusTables

/-- C5 witness: deleting the registered, empty profile `"Alt"` succeeds
and removes both its registry row and its status table. -/
theorem delete_profile_spec_witness :
    ("Alt" : String) ≠ "Default" ∧ "Alt" ∈ dbAlt.profiles ∧
    ((dbAlt.delete_profile "Alt").1 = Except.ok () ∧
      "Alt" ∉ ((dbAlt.delete_profile "Alt").2).profiles ∧
      (∀ p, p ≠ "Alt" →
        (p ∈ ((dbAlt.delete_profile "Alt").2).profiles ↔ p ∈ dbAlt.profiles)) ∧
      alookup "Alt" ((dbAlt.delete_profile "Alt").2).statusTables = none ∧
      ∀ p, p ≠ "Alt" →
        alookup p ((dbAlt.delete_profile "Alt").2).statusTables =
          alookup p dbAlt.statusTables) :=
  ⟨by decide, by decide,
    (delete_profile_spec dbAlt).2 "Alt" (by decide) (by decide)⟩

/-- C10: deleting a name that is neither `"Default"` nor registered
returns `Ok` (not an error), and leaves the registry and every
registered profile's status table untouched. -/
theorem delete_profile_unregistered (s : DBState) (name : String)
    (h1 : name ≠ "Default") (h2 : name ∉ s.profiles) :
    (s.delete_profile name).1 = Except.ok () ∧
    ((s.delete_profile name).2).profiles = s.profiles ∧
    ∀ p ∈ s.profiles,
      alookup p ((s.delete_profile name).2).statusTables =
        alookup p s.statusTables := by
  refine ⟨?_, ?_, ?_⟩
  · simp [DBState.delete_profile, h1]
  · simp only [DBState.delete_profile, if_neg h1]
    apply List.filter_eq_self.mpr
    intro a ha
    have : a ≠ name := fun hh => h2 (hh ▸ ha)
    simp [beq_eq_false_iff_ne.mpr this]
  · intro p hp
    simp only [DBState.delete_profile, if_neg h1]
    have : p ≠ name := fun hh => h2 (hh ▸ hp)
    exact alookup_eraseKey_ne p name this s.statusTables

/-- C10 witness: deleting the never-registered name `"Ghost"` on a fresh
store returns `Ok` and changes nothing observable. -/
theorem delete_profile_unregistered_witness :
    ("Ghost" : String) ≠ "Default" ∧ "Ghost" ∉ dbInit.profiles ∧
    ((dbInit.delete_profile "Ghost").1 = Except.ok () ∧
      ((dbInit.delete_profile "Ghost").2).profiles = dbInit.profiles ∧
      ∀ p ∈ dbInit.profiles,
        alookup p ((dbInit.delete_profile "Ghost").2).statusTables =
          alookup p dbInit.statusTables) :=
  ⟨by decide, by decide,
    delete_profile_unregistered dbInit "Ghost" (by decide) (by decide)⟩

/-- C3 counterexample: `update_mod_enabled("ghost_mod", true)` on a
fresh store, where `"ghost_mod"` has no status row, returns `Ok` — it
does not fail with an `UnknownMod` error — and leaves the state
unchanged. -/
theorem update_mod_enabled_ghost_ok :
    (dbInit.update_mod_enabled "ghost_mod" true).1 = Except.ok () ∧
    (dbInit.update_mod_enabled "ghost_mod" true).2 = dbInit :=
  ⟨rfl, rfl⟩

/-- C3 (amended): `update_mod_enabled` on a mod id with no status row
in the current profile's table is a silent no-op: it returns `Ok` and
inserts no new status row — every profile's status table is exactly as
before. -/
theorem update_mod_enabled_missing_noop (s : DBState) (mid : String)
    (b : Bool) (tbl : List (String × StatusRow))
    (ht : alookup s.current_profile s.statusTables = some tbl)
    (hm : alookup mid tbl = none) :
    (s.update_mod_enabled mid b).1 = Except.ok () ∧
    ∀ p, alookup p ((s.update_mod_enabled mid b).2).statusTables =
      alookup p s.statusTables := by
  unfold DBState.update_mod_enabled
  rw [ht]
  refine ⟨rfl, ?_⟩
  intro p
  simp only
  rw [updateRows_of_none _ _ _ hm]
  by_cases hp : p = s.current_profile
  · subst hp
    rw [alookup_setTable_self _ tbl tbl _ ht, ht]
  · rw [alookup_setTable_ne p s.current_profile hp tbl s.statusTables]

/-- C3 witness: the ghost update on the fresh store discharges the
amended theorem's hypotheses. -/
theorem update_mod_enabled_missing_noop_witness :
    alookup dbInit.current_profile dbInit.statusTables = some [] ∧
    alookup "ghost_mod" ([] : List (String × StatusRow)) = none ∧
    ((dbInit.update_mod_enabled "ghost_mod" true).1 = Except.ok () ∧
      ∀ p, alookup p ((dbInit.update_mod_enabled "ghost_mod" true).2).statusTables =
        alookup p dbInit.statusTables) :=
  ⟨by decide, by decide,
    update_mod_enabled_missing_noop dbInit "ghost_mod" true []
      (by decide) (by decide)⟩

/-- C9: when the entry's `mod_id` already has a status row in the
current profile's table, `add_mod` succeeds and leaves that whole table
(and in particular the row's version and flags) unchanged. -/
theorem add_mod_preserves_status (s : DBState) (e : ModEntry)
    (tbl : List (String × StatusRow)) (r : StatusRow)
    (ht : alookup s.current_profile s.statusTables = some tbl)
    (hr : alookup e.mod_id tbl = some r) :
    (s.add_mod e).1 = Except.ok () ∧
    alookup s.current_profile ((s.add_mod e).2).statusTables = some tbl ∧
    alookup e.mod_id tbl = some r := by
  unfold DBState.add_mod
  rw [ht]
  refine ⟨rfl, ?_, hr⟩
  simp only
  rw [insertIgnore_of_isSome _ _ _ (by simp [hr])]
  exact alookup_setTable_self _ tbl tbl _ ht

/-- C9 witness: re-adding `m1` with a different name, version and set
flags leaves its `Default` status row `("1.2", false, false)` intact. -/
theorem add_mod_preserves_status_witness :
    alookup dbWithMod.current_profile dbWithMod.statusTables =
      some [("m1", ⟨"1.2", false, false⟩)] ∧
    alookup "m1" [("m1", (⟨"1.2", false, false⟩ : StatusRow))] =
      some ⟨"1.2", false, false⟩ ∧
    ((dbWithMod.add_mod ⟨"m1", "Other", "x", "y", "9.9", true, true⟩).1 =
        Except.ok () ∧
      alookup dbWithMod.current_profile
          ((dbWithMod.add_mod
            ⟨"m1", "Other", "x", "y", "9.9", true, true⟩).2).statusTables =
        some [("m1", ⟨"1.2", false, false⟩)] ∧
      alookup "m1" [("m1", (⟨"1.2", false, false⟩ : StatusRow))] =
        some ⟨"1.2", false, false⟩) :=
  ⟨by decide, by decide,
    add_mod_preserves_status dbWithMod
      ⟨"m1", "Other", "x", "y", "9.9", true, true⟩
      [("m1", ⟨"1.2", false, false⟩)] ⟨"1.2", false, false⟩
      (by decide) (by decide)⟩

/-- Every store operation keeps `"Default"` registered. -/
theorem default_mem_step (s : DBState) (o : Op)
    (h : "Default" ∈ s.profiles) : "Default" ∈ (step s o).profiles := by
  cases o with
  | createProfile n =>
    simp only [step, DBState.create_profile]
    by_cases hn : n ∈ s.profiles
    · simp [hn, h]
    · simp [hn, h]
  | deleteProfile n =>
    simp only [step, DBState.delete_profile]
    by_cases hn : n = "Default"
    · simp [hn, h]
    · have : ("Default" : String) ≠ n := fun hh => hn hh.symm
      simp [hn, List.mem_filter, h, beq_eq_false_iff_ne.mpr this]
  | setCurrentProfile n => exact h
  | addMod e =>
    show "Default" ∈ ((s.add_mod e).2).profiles
    rw [add_mod_profiles]
    exact h
  | updateModStatus mid i en =>
    show "Default" ∈ ((s.update_mod_status mid i en).2).profiles
    rw [update_mod_status_profiles]
    exact h
  | updateModInstalled mid i =>
    show "Default" ∈ ((s.update_mod_installed mid i).2).profiles
    rw [update_mod_installed_profiles]
    exact h
  | updateModEnabled mid en =>
    show "Default" ∈ ((s.update_mod_enabled mid en).2).profiles
    rw [update_mod_enabled_profiles]
    exact h

/-- C6: after `Database::new` on any database file the current profile
is `"Default"`, and `"Default"` stays registered across every sequence
of store operations. -/
theorem default_profile_invariant (d : DiskState) (ops : List Op) :
    (Database.new d).current_profile = "Default" ∧
    "Default" ∈ (ops.foldl step (Database.new d)).profiles := by
  constructor
  · rfl
  · have hbase : "Default" ∈ (Database.new d).profiles := by
      unfold Database.new
      by_cases hd : "Default" ∈ d.profiles
      · simp [hd]
      · simp [hd]
    have hfold : ∀ (l : List Op) (s : DBState),
        "Default" ∈ s.profiles → "Default" ∈ (l.foldl step s).profiles := by
      intro l
      induction l with
      | nil => intro s hs; exact hs
      | cons o rest ih => intro s hs; exact ih _ (default_mem_step s o hs)
    exact hfold ops _ hbase

/-- After an `INSERT OR REPLACE` the inserted key occurs exactly once
among the table's keys. -/
theorem count_keys_insertReplace {α : Type} (k : String) (v : α)
    (l : List (String × α)) :
    ((insertReplace k v l).map Prod.fst).count k = 1 := by
  unfold insertReplace
  rw [List.map_append, List.count_append]
  have hz : ((l.filter (fun p => !(p.1 == k))).map Prod.fst).count k = 0 := by
    rw [List.count_eq_zero]
    intro hmem
    rcases List.mem_map.mp hmem with ⟨p, hp, hfst⟩
    have hpred := (List.mem_filter.mp hp).2
    rw [hfst] at hpred
    simp at hpred
  rw [hz]
  simp

/-- C7: adding the same `mod_id` twice (with possibly different names
and versions) leaves exactly one global row for that id, carrying the
second call's metadata, while both calls' version strings are in the
version table. -/
theorem add_mod_global_idempotent (s : DBState) (e1 e2 : ModEntry)
    (_h : e1.mod_id = e2.mod_id) :
    (((((s.add_mod e1).2).add_mod e2).2).mods_global.map Prod.fst).count
        e2.mod_id = 1 ∧
    alookup e2.mod_id ((((s.add_mod e1).2).add_mod e2).2).mods_global =
      some ⟨e2.mod_name, e2.mod_link, e2.download_folder⟩ ∧
    (e1.mod_id, e1.selected_version) ∈
      ((((s.add_mod e1).2).add_mod e2).2).mod_versions ∧
    (e2.mod_id, e2.selected_version) ∈
      ((((s.add_mod e1).2).add_mod e2).2).mod_versions := by
  have h1 : (e1.mod_id, e1.selected_version) ∈
      ((s.add_mod e1).2).mod_versions := by
    rw [add_mod_mod_versions]
    by_cases hv : (e1.mod_id, e1.selected_version) ∈ s.mod_versions
    · simp [hv]
    · simp [hv]
  refine ⟨?_, ?_, ?_, ?_⟩
  · rw [add_mod_mods_global]
    exact count_keys_insertReplace _ _ _
  · rw [add_mod_mods_global]
    exact alookup_insertReplace_self _ _ _
  · rw [add_mod_mod_versions]
    by_cases hv : (e2.mod_id, e2.selected_version) ∈
        ((s.add_mod e1).2).mod_versions
    · simpa [hv] using h1
    · simp only [hv, if_false, List.mem_append]
      exact Or.inl h1
  · rw [add_mod_mod_versions]
    by_cases hv : (e2.mod_id, e2.selected_version) ∈
        ((s.add_mod e1).2).mod_versions
    · simp [hv]
    · simp [hv]

/-- C7 witness: adding `m1` twice with different names and versions on
a fresh store. -/
theorem add_mod_global_idempotent_witness :
    (entryFast.mod_id =
      (⟨"m1", "Fast Ladders v2", "/tmp/l2.zip", "dl", "2.0", false, false⟩ :
        ModEntry).mod_id) ∧
    ((((((dbInit.add_mod entryFast).2).add_mod
          ⟨"m1", "Fast Ladders v2", "/tmp/l2.zip", "dl", "2.0", false,
            false⟩).2).mods_global.map Prod.fst).count "m1" = 1 ∧
      alookup "m1"
          ((((dbInit.add_mod entryFast).2).add_mod
            ⟨"m1", "Fast Ladders v2", "/tmp/l2.zip", "dl", "2.0", false,
              false⟩).2).mods_global =
        some ⟨"Fast Ladders v2", "/tmp/l2.zip", "dl"⟩ ∧
      ("m1", "1.2") ∈
        ((((dbInit.add_mod entryFast).2).add_mod
          ⟨"m1", "Fast Ladders v2", "/tmp/l2.zip", "dl", "2.0", false,
            false⟩).2).mod_versions ∧
      ("m1", "2.0") ∈
        ((((dbInit.add_mod entryFast).2).add_mod
          ⟨"m1", "Fast Ladders v2", "/tmp/l2.zip", "dl", "2.0", false,
            false⟩).2).mod_versions) :=
  ⟨rfl,
    add_mod_global_idempotent dbInit entryFast
      ⟨"m1", "Fast Ladders v2", "/tmp/l2.zip", "dl", "2.0", false, false⟩
      rfl⟩

/-- The mod the C4 counterexample adds: its status fields are not the
defaults. -/
def entryLoud : ModEntry :=
  ⟨"m1", "Name", "link", "folder", "2.0.0", true, true⟩

/-- C4 counterexample: adding a fresh mod whose entry carries
`("2.0.0", true, true)` makes `get_mods` report exactly those values —
not `installed = false`, `enabled = false`, `selected_version =
"1.0.0"` as the claim states. -/
theorem add_mod_defaults_counterexample :
    ((dbInit.add_mod entryLoud).2).reported_status "m1" =
      some ⟨"2.0.0", true, true⟩ ∧
    ((dbInit.add_mod entryLoud).2).reported_status "m1" ≠
      some ⟨"1.0.0", false, false⟩ :=
  ⟨rfl, by decide⟩

/-- C4 (amended): a mod added while profile `P` is current and with no
prior status row in `P` is reported by `get_mods` under `P` with the
`selected_version`, `installed` and `enabled` values carried by the
entry passed to `add_mod` (the status row is initialized from the
entry, not from fixed defaults), until explicitly changed. -/
theorem add_mod_reports_entry_values (s : DBState) (e : ModEntry)
    (tbl : List (String × StatusRow))
    (ht : alookup s.current_profile s.statusTables = some tbl)
    (hnew : alookup e.mod_id tbl = none) :
    ((s.add_mod e).2).reported_status e.mod_id =
      some ⟨e.selected_version, e.installed, e.enabled⟩ := by
  have hcur : ((s.add_mod e).2).current_profile = s.current_profile :=
    add_mod_current_profile s e
  have hpost : alookup s.current_profile ((s.add_mod e).2).statusTables =
      some (insertIgnore e.mod_id
        ⟨e.selected_version, e.installed, e.enabled⟩ tbl) := by
    unfold DBState.add_mod
    rw [ht]
    simp only
    exact alookup_setTable_self _ tbl _ _ ht
  have hchar := reported_status_of_table ((s.add_mod e).2)
    (insertIgnore e.mod_id ⟨e.selected_version, e.installed, e.enabled⟩ tbl)
    (by rw [hcur]; exact hpost) e.mod_id
  rw [hchar]
  have hany : (((s.add_mod e).2).mods_global.any
      (fun p => p.1 == e.mod_id)) = true := by
    rw [add_mod_mods_global]
    unfold insertReplace
    rw [List.any_append]
    simp
  rw [if_pos hany]
  rw [alookup_insertIgnore_self_of_none _ _ _ hnew]
  rfl

/-- C4 witness: the loud entry added to a fresh store discharges the
amended theorem's hypotheses. -/
theorem add_mod_reports_entry_values_witness :
    alookup dbInit.current_profile dbInit.statusTables = some [] ∧
    alookup entryLoud.mod_id ([] : List (String × StatusRow)) = none ∧
    ((dbInit.add_mod entryLoud).2).reported_status entryLoud.mod_id =
      some ⟨entryLoud.selected_version, entryLoud.installed,
        entryLoud.enabled⟩ :=
  ⟨by decide, by decide,
    add_mod_reports_entry_values dbInit entryLoud [] (by decide) (by decide)⟩

/-- What `get_mods` reports for `id` after switching to profile `A`,
as a function of `A`'s status table and the global catalog. -/
theorem reported_set_current (s : DBState) (A id : String) :
    (s.set_current_profile A).reported_status id =
      match alookup A s.statusTables with
      | none => none
      | some tbl =>
        if s.mods_global.any (fun p => p.1 == id) then
          some ((alookup id tbl).getD ⟨"1.0.0", false, false⟩)
        else none := by
  cases hA : alookup A s.statusTables with
  | none =>
    rw [reported_status_of_no_table _ hA id]
  | some tbl =>
    rw [reported_status_of_table _ tbl hA id]
    rfl

/-- C1: while profile `B` (≠ `A`) is current, the status mutations
`update_mod_status`, `update_mod_installed`, `update_mod_enabled` leave
everything `get_mods` reports under `A` unchanged, and `add_mod` leaves
the status triple reported under `A` unchanged for every mod id that
was reported before.  In particular switching `A → B → A` reproduces
exactly the status set last written under `A`. -/
theorem profile_isolation (s : DBState) (A : String)
    (h : A ≠ s.current_profile) :
    (∀ mid i en id,
      (((s.update_mod_status mid i en).2).set_current_profile A).reported_status
          id =
        (s.set_current_profile A).reported_status id) ∧
    (∀ mid i id,
      (((s.update_mod_installed mid i).2).set_current_profile A).reported_status
          id =
        (s.set_current_profile A).reported_status id) ∧
    (∀ mid en id,
      (((s.update_mod_enabled mid en).2).set_current_profile A).reported_status
          id =
        (s.set_current_profile A).reported_status id) ∧
    (∀ e id t,
      (s.set_current_profile A).reported_status id = some t →
        (((s.add_mod e).2).set_current_profile A).reported_status id =
          some t) := by
  refine ⟨?_, ?_, ?_, ?_⟩
  · intro mid i en id
    rw [reported_set_current, reported_set_current,
      update_mod_status_tables_ne s mid i en A h,
      update_mod_status_mods_global]
  · intro mid i id
    rw [reported_set_current, reported_set_current,
      update_mod_installed_tables_ne s mid i A h,
      update_mod_installed_mods_global]
  · intro mid en id
    rw [reported_set_current, reported_set_current,
      update_mod_enabled_tables_ne s mid en A h,
      update_mod_enabled_mods_global]
  · intro e id t hbefore
    rw [reported_set_current] at hbefore ⊢
    rw [add_mod_statusTables_ne s e A h]
    cases hA : alookup A s.statusTables with
    | none =>
      rw [hA] at hbefore
      exact absurd hbefore (by simp)
    | some tbl =>
      simp only [hA] at hbefore ⊢
      by_cases hq : s.mods_global.any (fun p => p.1 == id) = true
      · rw [if_pos hq] at hbefore
        have hq2 : (((s.add_mod e).2).mods_global.any
            (fun p => p.1 == id)) = true := by
          rw [add_mod_mods_global]
          unfold insertReplace
          rw [List.any_append, Bool.or_eq_true]
          by_cases hid : id = e.mod_id
          · exact Or.inr (by simp [hid])
          · refine Or.inl ?_
            rcases List.any_eq_true.mp hq with ⟨p, hpmem, hpq⟩
            have hp1 : p.1 = id := beq_iff_eq.mp hpq
            refine List.any_eq_true.mpr
              ⟨p, List.mem_filter.mpr ⟨hpmem, ?_⟩, hpq⟩
            simp [hp1, beq_eq_false_iff_ne.mpr hid]
        rw [if_pos hq2]
        exact hbefore
      · rw [if_neg hq] at hbefore
        exact absurd hbefore (by simp)

/-- C1 witness: a mutation issued while `"Default"` is current does not
change what `get_mods` reports under `"Alt"`. -/
theorem profile_isolation_witness :
    ("Alt" : String) ≠ dbInit.current_profile ∧
    (((dbInit.update_mod_status "m1" true true).2).set_current_profile
        "Alt").reported_status "m1" =
      (dbInit.set_current_profile "Alt").reported_status "m1" :=
  ⟨by decide,
    (profile_isolation dbInit "Alt" (by decide)).1 "m1" true true "m1"⟩

/-- C2: with the current profile's table present and the global catalog
keyed uniquely, `get_mods` succeeds; every mod id of the global table
appears exactly once in the result; and each result entry carries its
status row's triple when one exists, or the defaults
`("1.0.0", false, false)` otherwise. -/
theorem get_mods_left_join (s : DBState) (tbl : List (String × StatusRow))
    (ht : alookup s.current_profile s.statusTables = some tbl)
    (hnd : (s.mods_global.map Prod.fst).Nodup) :
    ∃ l, s.get_mods = Except.ok l ∧
      (∀ id, id ∈ s.mods_global.map Prod.fst →
        (l.map ModEntry.mod_id).count id = 1) ∧
      (∀ ent ∈ l, ent.mod_id ∈ s.mods_global.map Prod.fst ∧
        match alookup ent.mod_id tbl with
        | some r => ent.selected_version = r.selected_version ∧
            ent.installed = r.installed ∧ ent.enabled = r.enabled
        | none => ent.selected_version = "1.0.0" ∧
            ent.installed = false ∧ ent.enabled = false) := by
  have hmap : (s.mods_global.map (decorateRow tbl)).map ModEntry.mod_id =
      s.mods_global.map Prod.fst := by
    rw [List.map_map]
    rfl
  refine ⟨s.mods_global.map (decorateRow tbl), ?_, ?_, ?_⟩
  · unfold DBState.get_mods
    rw [ht]
  · intro id hid
    rw [hmap]
    exact List.count_eq_one_of_mem hnd hid
  · intro ent hent
    rcases List.mem_map.mp hent with ⟨p, hp, hdec⟩
    constructor
    · rw [← hmap]
      exact List.mem_map.mpr ⟨ent, hent, rfl⟩
    · subst hdec
      show (match alookup (decorateRow tbl p).mod_id tbl with
        | some r => (decorateRow tbl p).selected_version =
              r.selected_version ∧
            (decorateRow tbl p).installed = r.installed ∧
            (decorateRow tbl p).enabled = r.enabled
        | none => (decorateRow tbl p).selected_version = "1.0.0" ∧
            (decorateRow tbl p).installed = false ∧
            (decorateRow tbl p).enabled = false)
      cases hal : alookup p.1 tbl with
      | some r => simp [decorateRow, hal]
      | none => simp [decorateRow, hal]

/-- C2 witness: the fresh store with one mod: `get_mods` lists `m1`
exactly once with its status row's triple. -/
theorem get_mods_left_join_witness :
    alookup dbWithMod.current_profile dbWithMod.statusTables =
      some [("m1", ⟨"1.2", false, false⟩)] ∧
    (dbWithMod.mods_global.map Prod.fst).Nodup ∧
    (∃ l, dbWithMod.get_mods = Except.ok l ∧
      (∀ id, id ∈ dbWithMod.mods_global.map Prod.fst →
        (l.map ModEntry.mod_id).count id = 1) ∧
      (∀ ent ∈ l, ent.mod_id ∈ dbWithMod.mods_global.map Prod.fst ∧
        match alookup ent.mod_id [("m1", (⟨"1.2", false, false⟩ : StatusRow))] with
        | some r => ent.selected_version = r.selected_version ∧
            ent.installed = r.installed ∧ ent.enabled = r.enabled
        | none => ent.selected_version = "1.0.0" ∧
            ent.installed = false ∧ ent.enabled = false)) :=
  ⟨by decide, by decide,
    get_mods_left_join dbWithMod [("m1", ⟨"1.2", false, false⟩)]
      (by decide) (by decide)⟩
